import Mathlib

/-!
# Verification of the reverse-proxy configuration pipeline

A shallow embedding, in Lean 4, of the configuration-generation and reload
pipeline of the `reverse-proxy-mcp` repository:

* the certificate data model and the certificate resolver
  (`src/reverse_proxy_mcp/services/certificate.py`);
* the default-certificate operations of the same service;
* the nginx configuration template and the per-rule transformation
  performed by `generate_config`, the validator `validate_config`,
  the reload trigger `reload_nginx`, and the orchestrator `apply_config`
  (`src/nginx_manager/core/nginx.py`).

Database queries of the form `db.query(T).filter(p).first()` are embedded as
`List.find? p` over the store, which models the table in row order.
Python exceptions are embedded as explicit outcome values (`Option`/sum
branches); subprocess invocations are embedded as an outcome parameter
(exit code with captured stderr, timeout, or a raised OS error).
-/

namespace ReverseProxy


/-- A row of the `ssl_certificates` table.  Only the columns the
configuration pipeline reads are carried (`id`, `domain`, `cert_path`,
`key_path`, `is_default`, plus the friendly `name`). -/
structure SSLCertificate where
  id : Nat
  name : String
  domain : String
  cert_path : String
  key_path : String
  is_default : Bool
deriving Repr, DecidableEq

/-- A row of the `proxy_rules` table, restricted to the columns the
configuration pipeline reads. `certificate_id` is nullable
(`none` models SQL NULL); `ip_whitelist`, `custom_headers` and
`rate_limit` are nullable free text. -/
structure ProxyRule where
  frontend_domain : String
  backend_id : Nat
  certificate_id : Option Nat
  ip_whitelist : Option String
  enable_hsts : Bool
  hsts_max_age : Nat
  custom_headers : Option String
  rate_limit : Option String
  ssl_enabled : Bool
  force_https : Bool
deriving Repr, DecidableEq

/-- Python truthiness of an `Optional[int]` column: `None` and `0` are
falsy, every other integer is truthy (`if rule.certificate_id:`). -/
def intTruthy : Option Nat → Bool
  | none => false
  | some n => n != 0

/-- Python truthiness of an `Optional[str]` column: `None` and the empty
string are falsy (`if rule.ip_whitelist:`). -/
def strTruthy : Option String → Bool
  | none => false
  | some s => s != ""

/-- The characters after the first `'.'` of a character list; the whole
suffix `parts[1]` of Python's `host.split(".", 1)` when a dot is present. -/
def afterFirstDotAux : List Char → List Char
  | [] => []
  | c :: cs => if c = '.' then cs else afterFirstDotAux cs

/-- `parts[1]` of Python's `host.split(".", 1)`. -/
def afterFirstDot (s : String) : String :=
  String.mk (afterFirstDotAux s.data)

/-- The single-level wildcard pattern tried by the resolver:
`"*." + host.split(".", 1)[1]` when `"." in host`, nothing otherwise
(`CertificateService.get_certificate_for_rule`, stage 3). -/
def wildcardOf (host : String) : Option String :=
  if host.data.contains '.' then some ("*." ++ afterFirstDot host) else none

/-- Stages 2–4 of `CertificateService.get_certificate_for_rule`: exact
domain match, then single-level wildcard match, then the certificate
flagged as default, then no certificate. -/
def domainStages (db : List SSLCertificate) (host : String) : Option SSLCertificate :=
  match db.find? (fun c => c.domain == host) with
  | some c => some c
  | none =>
    match wildcardOf host with
    | some w =>
      match db.find? (fun c => c.domain == w) with
      | some c => some c
      | none => db.find? (fun c => c.is_default)
    | none => db.find? (fun c => c.is_default)

/-- `CertificateService.get_certificate_for_rule`: when the rule's
`certificate_id` is truthy the function returns the result of the lookup
by id — even when that lookup finds no row — and otherwise runs the
domain stages. -/
def get_certificate_for_rule (db : List SSLCertificate) (rule : ProxyRule) :
    Option SSLCertificate :=
  match rule.certificate_id with
  | some cid =>
    if cid != 0 then db.find? (fun c => c.id == cid)
    else domainStages db rule.frontend_domain
  | none => domainStages db rule.frontend_domain

/-- The resolver as the specification words it: stage 1 applies only when
the explicit `certificate_id` is set *and resolves to an existing row*;
a dangling id falls through to the domain stages.  Written from the
spec's resolution-order list, to be compared with
`get_certificate_for_rule` (which is written from the source). -/
def specResolve (db : List SSLCertificate) (rule : ProxyRule) :
    Option SSLCertificate :=
  match rule.certificate_id with
  | some cid =>
    if cid != 0 then
      match db.find? (fun c => c.id == cid) with
      | some c => some c
      | none => domainStages db rule.frontend_domain
    else domainStages db rule.frontend_domain
  | none => domainStages db rule.frontend_domain

/-- The bulk update `db.query(SSLCertificate).filter(SSLCertificate.is_default)
.update({"is_default": False})`: every row currently flagged as default is
unset. -/
def unsetDefaults (db : List SSLCertificate) : List SSLCertificate :=
  db.map (fun c => if c.is_default then { c with is_default := false } else c)

/-- `CertificateService.set_default_certificate`: look the certificate up
by id (`ValueError`, embedded as `Except.error`, when absent), unset the
default flag on all rows, then set it on the row with the given id, all
before the single `commit`. -/
def set_default_certificate (db : List SSLCertificate) (cert_id : Nat) :
    Except String (List SSLCertificate) :=
  match db.find? (fun c => c.id == cert_id) with
  | none => .error ("Certificate with ID " ++ toString cert_id ++ " not found")
  | some _ =>
    .ok ((unsetDefaults db).map
      (fun c => if c.id == cert_id then { c with is_default := true } else c))

/-- The store-level effect of `CertificateService.create_certificate`:
when the new row is to be the default, first unset every other default,
then append the new row (validation and file writes do not touch the
store and are not modelled here). -/
def create_certificate (db : List SSLCertificate) (cert : SSLCertificate) :
    List SSLCertificate :=
  (if cert.is_default then unsetDefaults db else db) ++ [cert]

/-- Outcome of one subprocess invocation (`subprocess.run`): normal
completion with an exit code and captured stderr, `TimeoutExpired`, or a
raised OS-level error such as the binary not being found. -/
inductive ProcOutcome where
  | completed (code : Nat) (stderr : String)
  | timeout
  | raised (msg : String)
deriving Repr, DecidableEq

/-- Python's `s or d` on strings: the empty string falls back to the
default. -/
def orDefault (s d : String) : String :=
  if s == "" then d else s

/-- Environment of one `validate_config` call: whether writing the
throwaway `<config_path>.test` file raises (and with what message), and
the outcome of the `nginx -t -c <temp>` subprocess. -/
structure ValidateEnv where
  writeTempRaises : Option String
  proc : ProcOutcome
deriving Repr, DecidableEq

/-- Result of `validate_config` together with whether the throwaway file
still exists afterward (the `finally` block removes it when present). -/
structure ValidateResult where
  ok : Bool
  msg : String
  tempExistsAfter : Bool
deriving Repr, DecidableEq

/-- `NginxConfigGenerator.validate_config`: write the candidate text to a
throwaway sibling file, run the proxy binary's syntax check, interpret
exit code zero as valid and anything else — nonzero exit, timeout, or a
raised error — as `(False, message)`; the `finally` block removes the
throwaway file whenever it exists.  Every branch returns a value: no
outcome escapes as an exception. -/
def validate_config (env : ValidateEnv) : ValidateResult :=
  match env.writeTempRaises with
  | some msg =>
    -- `open`/`write` raised: the except-branch returns `(False, str(e))`;
    -- the temp file was never created, so the finally-branch removes nothing.
    { ok := false, msg := msg, tempExistsAfter := false }
  | none =>
    match env.proc with
    | .completed code stderr =>
      if code == 0 then
        { ok := true, msg := "Configuration valid", tempExistsAfter := false }
      else
        { ok := false, msg := orDefault stderr "Unknown validation error",
          tempExistsAfter := false }
    | .timeout =>
      { ok := false, msg := "Validation timeout", tempExistsAfter := false }
    | .raised msg =>
      { ok := false, msg := msg, tempExistsAfter := false }

/-- `NginxConfigGenerator.reload_nginx`: run `nginx -s reload`, zero exit
is success, nonzero exit reports stderr (or a fallback), timeout and
raised errors report their message. -/
def reload_nginx (proc : ProcOutcome) : Bool × String :=
  match proc with
  | .completed code stderr =>
    if code == 0 then (true, "Nginx reloaded")
    else (false, orDefault stderr "Reload failed")
  | .timeout => (false, "Reload timeout")
  | .raised msg => (false, msg)

/-- Environment of one `apply_config` cycle: whether rendering raises,
the validator's environment, whether a live config file already exists,
whether the backup copy raises, whether the live write raises, and the
reload subprocess outcome. -/
structure ApplyEnv where
  generateRaises : Option String
  validation : ValidateEnv
  configExists : Bool
  backupRaises : Option String
  writeRaises : Option String
  reloadProc : ProcOutcome
deriving Repr, DecidableEq

/-- Side effects observed during one `apply_config` cycle: whether a
backup file was written, whether the live configuration file was
(re)written, and whether a reload was triggered. -/
structure ApplyTrace where
  backupWritten : Bool
  liveWritten : Bool
  reloadTriggered : Bool
deriving Repr, DecidableEq

/-- `NginxConfigGenerator.apply_config`: generate, validate (aborting with
a "Validation failed: "-prefixed message), back up the existing live file,
write the new file, reload.  Any exception inside the `try` body lands in
the except-branch, which returns `(False, "Error applying config: …")`;
steps after the failing one never run.  The validator's throwaway file is
a sibling `.test` path and is not the live configuration file, so a
validation run touches neither the backup directory nor the live path. -/
def apply_config (env : ApplyEnv) : (Bool × String) × ApplyTrace :=
  match env.generateRaises with
  | some msg =>
    ((false, "Error applying config: " ++ msg),
     { backupWritten := false, liveWritten := false, reloadTriggered := false })
  | none =>
    let v := validate_config env.validation
    if v.ok = false then
      ((false, "Validation failed: " ++ v.msg),
       { backupWritten := false, liveWritten := false, reloadTriggered := false })
    else
      match (if env.configExists then env.backupRaises else none) with
      | some msg =>
        -- `shutil.copy2` raised before writing the backup completed.
        ((false, "Error applying config: " ++ msg),
         { backupWritten := false, liveWritten := false, reloadTriggered := false })
      | none =>
        let backed := env.configExists
        match env.writeRaises with
        | some msg =>
          ((false, "Error applying config: " ++ msg),
           { backupWritten := backed, liveWritten := false, reloadTriggered := false })
        | none =>
          let r := reload_nginx env.reloadProc
          if r.fst then
            ((true, "Configuration applied and Nginx reloaded"),
             { backupWritten := backed, liveWritten := true, reloadTriggered := true })
          else
            ((false, "Reload failed: " ++ r.snd),
             { backupWritten := backed, liveWritten := true, reloadTriggered := true })

/-- Opening curly brace, kept as a named character. -/
def lbrace : Char := Char.ofNat 123

/-- Closing curly brace, kept as a named character. -/
def rbrace : Char := Char.ofNat 125

/-- JSON insignificant whitespace, skipped between tokens. -/
def skipWs : List Char → List Char
  | [] => []
  | c :: cs => if c = ' ' ∨ c = '\t' ∨ c = '\n' ∨ c = '\r' then skipWs cs else c :: cs

/-- The table of JSON escape letters and their decoded characters
(backspace 8, form feed 12, line feed 10, carriage return 13, tab 9). -/
def escapeTable : List (Char × Char) :=
  [('"', '"'), ('\\', '\\'), ('/', '/'),
   ('b', Char.ofNat 8), ('f', Char.ofNat 12), ('n', Char.ofNat 10),
   ('r', Char.ofNat 13), ('t', Char.ofNat 9)]

/-- A JSON escape sequence character and its decoded value (the `\uXXXX`
form is not modelled; inputs using it are treated as undecodable). -/
def escapeChar (e : Char) : Option Char :=
  (escapeTable.find? (fun p => p.1 == e)).map Prod.snd

/-- The body of a JSON string literal after its opening quote: the decoded
characters and the remainder after the closing quote. -/
def stringBody : List Char → Option (List Char × List Char)
  | [] => none
  | '"' :: rest => some ([], rest)
  | ['\\'] => none
  | '\\' :: e :: rest =>
    match escapeChar e with
    | none => none
    | some c =>
      match stringBody rest with
      | none => none
      | some (body, rem) => some (c :: body, rem)
  | c :: rest =>
    match stringBody rest with
    | none => none
    | some (body, rem) => some (c :: body, rem)

/-- One JSON string literal, with leading whitespace skipped. -/
def parseStringLit (cs : List Char) : Option (String × List Char) :=
  match skipWs cs with
  | '"' :: rest =>
    match stringBody rest with
    | some (body, rem) => some (String.mk body, rem)
    | none => none
  | _ => none

/-- Remaining elements of a JSON array of strings, after the first
element: a comma-separated tail closed by `]`.  `fuel` bounds the number
of elements and exceeds the input length, so exhaustion never fires on a
well-formed input. -/
def stringArrayTail (fuel : Nat) (acc : List String) (cs : List Char) :
    Option (List String × List Char) :=
  match fuel with
  | 0 => none
  | fuel + 1 =>
    match skipWs cs with
    | ']' :: rest => some (acc.reverse, rest)
    | ',' :: rest =>
      match parseStringLit rest with
      | some (s, rem) => stringArrayTail fuel (s :: acc) rem
      | none => none
    | _ => none

/-- A JSON array of string literals (the documented format of the
`ip_whitelist` column): `[]` or `[` string (`,` string)* `]`. -/
def parseStringArray (cs : List Char) : Option (List String × List Char) :=
  match skipWs cs with
  | '[' :: rest =>
    match skipWs rest with
    | ']' :: rem => some ([], rem)
    | _ =>
      match parseStringLit rest with
      | some (s, rem) => stringArrayTail (cs.length + 1) [s] rem
      | none => none
  | _ => none

/-- `json.loads` restricted to the documented shape of `ip_whitelist`
(a JSON list of IP strings): `none` models `JSONDecodeError`.  Inputs of
other JSON shapes are likewise treated as undecodable by this embedding. -/
def parseJsonStringList (s : String) : Option (List String) :=
  match parseStringArray s.data with
  | some (l, rem) => if skipWs rem = [] then some l else none
  | none => none

/-- One `"key": "value"` member of a JSON object of strings. -/
def parseMember (cs : List Char) : Option ((String × String) × List Char) :=
  match parseStringLit cs with
  | some (k, rem) =>
    match skipWs rem with
    | ':' :: rem2 =>
      match parseStringLit rem2 with
      | some (v, rem3) => some ((k, v), rem3)
      | none => none
    | _ => none
  | none => none

/-- Remaining members of a JSON object of strings, after the first
member. -/
def stringObjTail (fuel : Nat) (acc : List (String × String)) (cs : List Char) :
    Option (List (String × String) × List Char) :=
  match fuel with
  | 0 => none
  | fuel + 1 =>
    match skipWs cs with
    | [] => none
    | c :: rest =>
      if c = rbrace then some (acc.reverse, rest)
      else if c = ',' then
        match parseMember rest with
        | some (kv, rem) => stringObjTail fuel (kv :: acc) rem
        | none => none
      else none

/-- A JSON object with string keys and string values (the documented
format of the `custom_headers` column), members kept in input order, as
Python dicts preserve insertion order. -/
def parseStringObjBody (cs : List Char) : Option (List (String × String) × List Char) :=
  match skipWs cs with
  | [] => none
  | c :: rest =>
    if c = lbrace then
      match skipWs rest with
      | [] => none
      | c2 :: rem =>
        if c2 = rbrace then some ([], rem)
        else
          match parseMember rest with
          | some (kv, rem2) => stringObjTail (cs.length + 1) [kv] rem2
          | none => none
    else none

/-- `json.loads` restricted to the documented shape of `custom_headers`
(a JSON object of string pairs): `none` models `JSONDecodeError`. -/
def parseJsonStringPairs (s : String) : Option (List (String × String)) :=
  match parseStringObjBody s.data with
  | some (l, rem) => if skipWs rem = [] then some l else none
  | none => none

/-- `generate_config` lines 149–154: a truthy `ip_whitelist` column is
decoded as JSON, and both a falsy column and a decode failure yield the
empty list. -/
def parsedIpList (raw : Option String) : List String :=
  match raw with
  | some s => if s != "" then (parseJsonStringList s).getD [] else []
  | none => []

/-- `generate_config` lines 156–162: a truthy `custom_headers` column is
decoded as JSON, and both a falsy column and a decode failure yield the
empty dict. -/
def parsedHeaders (raw : Option String) : List (String × String) :=
  match raw with
  | some s => if s != "" then (parseJsonStringPairs s).getD [] else []
  | none => []

/-- One emitted configuration directive of a server block, one constructor
per directive line of `NGINX_TEMPLATE`. -/
inductive Directive where
  | listenSsl
  | listenHttp
  | serverName (host : String)
  | sslCertificate (path : String)
  | sslCertificateKey (path : String)
  | allow (ip : String)
  | denyAll
  | hstsHeader (maxAge : Nat)
  | addHeader (key value : String)
  | rateLimitReq
  | proxySetHeader (name value : String)
  | proxyPass (scheme : String) (backendId : Nat)
  | redirectHttps
deriving Repr, DecidableEq

/-- The per-rule dict built by `generate_config` lines 164–181 and handed
to the template: raw columns plus the decoded `ip_list` and
`custom_headers_dict`, and the backend's transport scheme. -/
structure RenderedRule where
  frontend_domain : String
  backend_id : Nat
  backend_protocol : String
  ip_whitelist : Option String
  ip_list : List String
  enable_hsts : Bool
  hsts_max_age : Nat
  custom_headers : Option String
  custom_headers_dict : List (String × String)
  rate_limit : Option String
  ssl_enabled : Bool
  force_https : Bool
deriving Repr, DecidableEq

/-- The transformation of one `ProxyRule` row into its template dict
(`generate_config` lines 145–181); `backend_protocol` is the protocol of
the rule's backend row, defaulting to `"http"` when the backend is
missing. -/
def toRenderedRule (rule : ProxyRule) (backend_protocol : String) : RenderedRule :=
  { frontend_domain := rule.frontend_domain
    backend_id := rule.backend_id
    backend_protocol := backend_protocol
    ip_whitelist := rule.ip_whitelist
    ip_list := parsedIpList rule.ip_whitelist
    enable_hsts := rule.enable_hsts
    hsts_max_age := rule.hsts_max_age
    custom_headers := rule.custom_headers
    custom_headers_dict := parsedHeaders rule.custom_headers
    rate_limit := rule.rate_limit
    ssl_enabled := rule.ssl_enabled
    force_https := rule.force_https }

/-- The rule's primary server block of `NGINX_TEMPLATE` (template lines
51–99), as the list of directives it emits, in template order: listener
and certificate lines, IP allow-list with its closing deny-all, HSTS
header, custom headers, rate limiting, proxy headers, and the proxy-pass
line.  The certificate and key paths are the template's
`default_ssl_cert_path`/`default_ssl_key_path` substitutions, passed in
by the caller. -/
def serverBlock (r : RenderedRule) (certPath keyPath : String) : List Directive :=
  (if r.ssl_enabled then
    [Directive.listenSsl, Directive.serverName r.frontend_domain,
     Directive.sslCertificate certPath, Directive.sslCertificateKey keyPath]
  else
    [Directive.listenHttp, Directive.serverName r.frontend_domain])
  ++ (if r.ip_list.isEmpty then [] else r.ip_list.map Directive.allow ++ [Directive.denyAll])
  ++ (if r.enable_hsts && r.ssl_enabled then [Directive.hstsHeader r.hsts_max_age] else [])
  ++ (if strTruthy r.custom_headers then
        r.custom_headers_dict.map (fun kv => Directive.addHeader kv.1 kv.2)
      else [])
  ++ (if strTruthy r.rate_limit then [Directive.rateLimitReq] else [])
  ++ [Directive.proxySetHeader "Host" "$host",
      Directive.proxySetHeader "X-Real-IP" "$remote_addr",
      Directive.proxySetHeader "X-Forwarded-For" "$proxy_add_x_forwarded_for",
      Directive.proxySetHeader "X-Forwarded-Proto" "$scheme",
      Directive.proxyPass r.backend_protocol r.backend_id]

/-- The HTTP-to-HTTPS redirect server of `NGINX_TEMPLATE` (template lines
41–48), emitted before the primary block when the rule both enables SSL
and forces HTTPS. -/
def redirectBlock (host : String) : List Directive :=
  [Directive.listenHttp, Directive.serverName host, Directive.redirectHttps]

/-- All server blocks emitted for one rule by `NGINX_TEMPLATE`. -/
def ruleServers (r : RenderedRule) (certPath keyPath : String) : List (List Directive) :=
  (if r.force_https && r.ssl_enabled then [redirectBlock r.frontend_domain] else [])
  ++ [serverBlock r certPath keyPath]

/-- Recognizes certificate material directives. -/
def isCertDirective : Directive → Bool
  | .sslCertificate _ => true
  | .sslCertificateKey _ => true
  | _ => false

/-- Recognizes the HSTS header directive. -/
def isHstsDirective : Directive → Bool
  | .hstsHeader _ => true
  | _ => false

/-- Recognizes access-control directives (`allow` lines and `deny all`). -/
def isIpDirective : Directive → Bool
  | .allow _ => true
  | .denyAll => true
  | _ => false

/-- Recognizes custom `add_header` directives. -/
def isAddHeaderDirective : Directive → Bool
  | .addHeader _ _ => true
  | _ => false

/-- Modelled from the spec: the certificate binding of the rule's server
block.  The module that performs it, `reverse_proxy_mcp/core/nginx.py`,
is absent from the source tree (only its tests and callers are present);
per the spec the renderer must "bind the resolved certificate's paths if
SSL-enabled (falling back to the global default paths if resolution
yielded none)".  The resolution itself is the source-embedded
`get_certificate_for_rule`. -/
def resolvedCertPaths (db : List SSLCertificate) (rule : ProxyRule)
    (defCert defKey : String) : String × String :=
  match get_certificate_for_rule db rule with
  | some c => (c.cert_path, c.key_path)
  | none => (defCert, defKey)

/-- Modelled from the spec: the full render of one rule's primary server
block by the absent `reverse_proxy_mcp/core/nginx.py`, binding the paths
chosen by `resolvedCertPaths` into the template's server block. -/
def renderRuleResolved (db : List SSLCertificate) (rule : ProxyRule)
    (backend_protocol : String) (defCert defKey : String) : List Directive :=
  serverBlock (toRenderedRule rule backend_protocol)
    (resolvedCertPaths db rule defCert defKey).1
    (resolvedCertPaths db rule defCert defKey).2

/-- A UTC instant broken into calendar fields, as rendered into the
configuration header. -/
structure UtcMoment where
  year : Nat
  month : Nat
  day : Nat
  hour : Nat
  minute : Nat
  second : Nat
deriving Repr, DecidableEq

/-- Two-digit zero padding of a calendar field. -/
def pad2 (n : Nat) : String :=
  if n < 10 then "0" ++ toString n else toString n

/-- Modelled from the spec: the timestamp rendered into the configuration
header by the absent `reverse_proxy_mcp/core/nginx.py`.  Per the spec the
renderer must "render the current UTC timestamp (with explicit UTC
offset, never a naive/local timestamp)", and the repository's
`tests/test_timezones.py` asserts the rendered configuration carries the
`+00:00` offset. -/
def isoUtcTimestamp (t : UtcMoment) : String :=
  toString t.year ++ "-" ++ pad2 t.month ++ "-" ++ pad2 t.day ++ "T"
    ++ pad2 t.hour ++ ":" ++ pad2 t.minute ++ ":" ++ pad2 t.second ++ "+00:00"

/-- Modelled from the spec: the header comment of the rendered
configuration ("Generated at …", template line 19), carrying the UTC
timestamp. -/
def configHeaderComment (t : UtcMoment) : String :=
  "# Generated at " ++ isoUtcTimestamp t

/-- The resolution chain as amended: a truthy explicit `certificate_id`
always answers stage 1 — with the certificate of that id when it exists
and with no certificate otherwise — and only a falsy `certificate_id`
reaches the domain stages.  Written from the amended claim's words, to be
compared with the source-embedded resolver. -/
def amendedResolve (db : List SSLCertificate) (rule : ProxyRule) :
    Option SSLCertificate :=
  if intTruthy rule.certificate_id then
    db.find? (fun c => c.id == rule.certificate_id.getD 0)
  else
    match db.find? (fun c => c.domain == rule.frontend_domain) with
    | some c => some c
    | none =>
      match wildcardOf rule.frontend_domain with
      | some w =>
        match db.find? (fun c => c.domain == w) with
        | some c => some c
        | none => db.find? (fun c => c.is_default)
      | none => db.find? (fun c => c.is_default)

/-- A certificate whose domain is exactly `api.example.com`. -/
def c1Cert : SSLCertificate :=
  { id := 1, name := "api-cert", domain := "api.example.com",
    cert_path := "/etc/certs/api.crt", key_path := "/etc/certs/api.key",
    is_default := false }

/-- A rule for `api.example.com` whose explicit `certificate_id` is 5,
an id no certificate carries. -/
def c1Rule : ProxyRule :=
  { frontend_domain := "api.example.com", backend_id := 1,
    certificate_id := some 5, ip_whitelist := none, enable_hsts := false,
    hsts_max_age := 31536000, custom_headers := none, rate_limit := none,
    ssl_enabled := true, force_https := true }

/-- A wildcard certificate for `*.example.com`, flagged as default. -/
def c7Cert : SSLCertificate :=
  { id := 2, name := "wildcard-cert", domain := "*.example.com",
    cert_path := "/etc/certs/wild.crt", key_path := "/etc/certs/wild.key",
    is_default := true }

/-- A rule for `app.example.com` whose explicit `certificate_id` is 9,
an id no certificate carries. -/
def c7Rule : ProxyRule :=
  { frontend_domain := "app.example.com", backend_id := 2,
    certificate_id := some 9, ip_whitelist := none, enable_hsts := false,
    hsts_max_age := 31536000, custom_headers := none, rate_limit := none,
    ssl_enabled := true, force_https := false }

/-- A store carrying two default-flagged certificates at once, to witness
that the invariant is restored regardless of prior state. -/
def c8Db : List SSLCertificate :=
  [{ id := 1, name := "a", domain := "a.example.com",
     cert_path := "/a.crt", key_path := "/a.key", is_default := true },
   { id := 2, name := "b", domain := "b.example.com",
     cert_path := "/b.crt", key_path := "/b.key", is_default := true },
   { id := 3, name := "c", domain := "c.example.com",
     cert_path := "/c.crt", key_path := "/c.key", is_default := false }]

/-- A new certificate row flagged as default on creation. -/
def c8NewCert : SSLCertificate :=
  { id := 4, name := "d", domain := "d.example.com",
    cert_path := "/d.crt", key_path := "/d.key", is_default := true }

/-- Environment of an apply cycle whose validation rejects the rendered
configuration. -/
def c3EnvInvalid : ApplyEnv :=
  { generateRaises := none,
    validation := ⟨none, ProcOutcome.completed 1 "syntax error"⟩,
    configExists := true, backupRaises := none, writeRaises := none,
    reloadProc := ProcOutcome.completed 0 "" }

/-- Environment of an apply cycle whose validation succeeds but whose
live-file write raises. -/
def c3EnvWriteFail : ApplyEnv :=
  { generateRaises := none,
    validation := ⟨none, ProcOutcome.completed 0 ""⟩,
    configExists := true, backupRaises := none,
    writeRaises := some "disk full",
    reloadProc := ProcOutcome.completed 0 "" }

/-- A plain-HTTP rule whose HSTS flag is nevertheless set. -/
def c5Rule : ProxyRule :=
  { frontend_domain := "plain.example.com", backend_id := 1,
    certificate_id := none, ip_whitelist := none, enable_hsts := true,
    hsts_max_age := 31536000, custom_headers := none, rate_limit := none,
    ssl_enabled := false, force_https := false }

/-- The spec's scenario rule: an allow-list of two addresses. -/
def c6Rule : ProxyRule :=
  { frontend_domain := "internal.example.com", backend_id := 1,
    certificate_id := none,
    ip_whitelist := some "[\"203.0.113.4\",\"203.0.113.5\"]",
    enable_hsts := false, hsts_max_age := 31536000,
    custom_headers := none, rate_limit := none,
    ssl_enabled := false, force_https := false }

/-- A rule both of whose JSON columns hold undecodable text. -/
def c10Rule : ProxyRule :=
  { frontend_domain := "broken.example.com", backend_id := 1,
    certificate_id := none, ip_whitelist := some "not json",
    enable_hsts := false, hsts_max_age := 31536000,
    custom_headers := some "also not json", rate_limit := none,
    ssl_enabled := false, force_https := false }

/-- A wildcard certificate matching the witness rule's hostname. -/
def c2Cert : SSLCertificate :=
  { id := 7, name := "wild", domain := "*.example.org",
    cert_path := "/w.crt", key_path := "/w.key", is_default := false }

/-- An SSL-enabled rule with no explicit certificate reference. -/
def c2Rule : ProxyRule :=
  { frontend_domain := "api.example.org", backend_id := 3,
    certificate_id := none, ip_whitelist := none, enable_hsts := false,
    hsts_max_age := 31536000, custom_headers := none, rate_limit := none,
    ssl_enabled := true, force_https := true }

/-! ## Theorems -/

/-- C1, counterexample: with a dangling explicit `certificate_id = 5` and
a certificate whose domain exactly equals the rule's hostname, the
claim's chain (`specResolve`) returns the exact-domain certificate, but
the code returns no certificate: the claim's "otherwise" stages are never
reached once `certificate_id` is set. -/
theorem c1_explicit_id_counterexample :
    specResolve [c1Cert] c1Rule = some c1Cert
      ∧ get_certificate_for_rule [c1Cert] c1Rule = none
      ∧ List.find? (fun c => c.id == 5) [c1Cert] = none := by
  refine ⟨rfl, rfl, rfl⟩

/-- C1, as amended: resolution follows the priority chain in which a set
(truthy) explicit `certificate_id` resolves to the certificate with that
id — or to no certificate when none exists, without consulting the later
stages — and otherwise the exact-domain, single-level-wildcard, and
default stages apply in order, with no match yielding no certificate. -/
theorem c1_resolution_follows_amended_chain
    (db : List SSLCertificate) (rule : ProxyRule) :
    get_certificate_for_rule db rule = amendedResolve db rule := by
  cases h : rule.certificate_id with
  | none =>
    simp [get_certificate_for_rule, amendedResolve, h, intTruthy, domainStages]
  | some cid =>
    by_cases hz : cid = 0
    · subst hz
      simp [get_certificate_for_rule, amendedResolve, h, intTruthy, domainStages]
    · simp [get_certificate_for_rule, amendedResolve, h, intTruthy, hz, domainStages]

/-- C7, counterexample: the explicit `certificate_id = 9` resolves to no
row, a wildcard certificate matching the hostname (which is also the
default certificate) exists, yet the code yields no certificate — stage 1
does not fall through to the remaining stages. -/
theorem c7_fallthrough_counterexample :
    List.find? (fun c => c.id == 9) [c7Cert] = none
      ∧ get_certificate_for_rule [c7Cert] c7Rule = none
      ∧ domainStages [c7Cert] c7Rule.frontend_domain = some c7Cert := by
  refine ⟨rfl, rfl, rfl⟩

/-- C7, as amended: for every rule whose `certificate_id` is set (truthy)
but does not resolve to an existing certificate row, resolution yields no
certificate; the exact-domain, wildcard and default stages are not
consulted. -/
theorem c7_dangling_explicit_id_yields_none
    (db : List SSLCertificate) (rule : ProxyRule) (cid : Nat)
    (hset : rule.certificate_id = some cid) (hnz : cid ≠ 0)
    (hmiss : db.find? (fun c => c.id == cid) = none) :
    get_certificate_for_rule db rule = none := by
  simp [get_certificate_for_rule, hset, hnz, hmiss]

/-- C7, witness: the amended statement applied to the concrete store and
rule of the counterexample. -/
theorem c7_dangling_explicit_id_witness :
    get_certificate_for_rule [c7Cert] c7Rule = none :=
  c7_dangling_explicit_id_yields_none [c7Cert] c7Rule 9 rfl (by decide) rfl

/-- After the bulk unset, no row carries the default flag. -/
lemma countP_unsetDefaults (db : List SSLCertificate) :
    (unsetDefaults db).countP (fun c => c.is_default) = 0 := by
  rw [List.countP_eq_zero]
  intro a ha
  obtain ⟨c, _, rfl⟩ := List.mem_map.mp ha
  by_cases h : c.is_default <;> simp [h]

/-- The bulk unset leaves every row's id unchanged. -/
lemma countP_id_unsetDefaults (db : List SSLCertificate) (p : Nat → Bool) :
    (unsetDefaults db).countP (fun c => p c.id) = db.countP (fun c => p c.id) := by
  induction db with
  | nil => rfl
  | cons h t ih =>
    by_cases hd : h.is_default <;>
      simp [unsetDefaults, List.countP_cons, hd] at ih ⊢ <;> omega

/-- Every row of the bulk-unset store has its default flag cleared. -/
lemma mem_unsetDefaults_false (db : List SSLCertificate) :
    ∀ c ∈ unsetDefaults db, c.is_default = false := by
  intro a ha
  obtain ⟨c, _, rfl⟩ := List.mem_map.mp ha
  by_cases h : c.is_default <;> simp [h]

/-- Setting the default flag exactly on the rows with the given id turns
the default count of an all-clear store into the count of rows carrying
that id. -/
lemma countP_set_by_id (l : List SSLCertificate) (cid : Nat)
    (hall : ∀ c ∈ l, c.is_default = false) :
    (l.map (fun c => if c.id == cid then { c with is_default := true } else c)).countP
      (fun c => c.is_default) = l.countP (fun c => c.id == cid) := by
  induction l with
  | nil => rfl
  | cons h t ih =>
    have hh : h.is_default = false := hall h (List.mem_cons_self h t)
    have ht : ∀ c ∈ t, c.is_default = false :=
      fun c hc => hall c (List.mem_cons_of_mem h hc)
    rw [List.map_cons, List.countP_cons, List.countP_cons, ih ht]
    by_cases hp : h.id == cid
    · simp [hp]
    · simp [hp, hh]

/-- In a store whose ids are pairwise distinct, a successful lookup by id
means exactly one row carries that id. -/
lemma countP_id_eq_one_of_find
    (db : List SSLCertificate) (cid : Nat)
    (hnd : (db.map (fun c => c.id)).Nodup)
    (hf : (db.find? (fun c => c.id == cid)).isSome) :
    db.countP (fun c => c.id == cid) = 1 := by
  induction db with
  | nil => simp at hf
  | cons h t ih =>
    rw [List.map_cons, List.nodup_cons] at hnd
    by_cases hp : h.id == cid
    · have hzero : t.countP (fun c => c.id == cid) = 0 := by
        rw [List.countP_eq_zero]
        intro a ha hac
        have hp2 : h.id = cid := by simpa using hp
        have hac2 : a.id = cid := by simpa using hac
        exact hnd.1 (by
          rw [hp2, ← hac2]
          exact List.mem_map.mpr ⟨a, ha, rfl⟩)
      simp [List.countP_cons, hp, hzero]
    · rw [List.find?_cons_of_neg _ (by simpa using hp)] at hf
      simp [List.countP_cons, hp, ih hnd.2 hf]

/-- C8: after `set_default_certificate` completes on a store with
pairwise-distinct ids, and after `create_certificate` adds a row flagged
as default, exactly one certificate carries `is_default`, regardless of
how many carried it before; the unset of all other defaults happens in
the same store update. -/
theorem c8_single_default_invariant
    (db db2 : List SSLCertificate) (cid : Nat) (cert : SSLCertificate) :
    ((db.map (fun c => c.id)).Nodup →
      set_default_certificate db cid = .ok db2 →
      db2.countP (fun c => c.is_default) = 1)
    ∧ (cert.is_default = true →
      (create_certificate db cert).countP (fun c => c.is_default) = 1) := by
  constructor
  · intro hnd hok
    have hf : (db.find? (fun c => c.id == cid)).isSome := by
      cases hfind : db.find? (fun c => c.id == cid) with
      | none =>
        simp only [set_default_certificate, hfind] at hok
        exact Except.noConfusion hok
      | some c => simp
    have hdb2 : db2 = (unsetDefaults db).map
        (fun c => if c.id == cid then { c with is_default := true } else c) := by
      cases hfind : db.find? (fun c => c.id == cid) with
      | none => simp [hfind] at hf
      | some c =>
        simp only [set_default_certificate, hfind, Except.ok.injEq] at hok
        exact hok.symm
    subst hdb2
    rw [countP_set_by_id _ cid (mem_unsetDefaults_false db),
      countP_id_unsetDefaults db (fun n => n == cid),
      countP_id_eq_one_of_find db cid hnd hf]
  · intro hdef
    simp [create_certificate, hdef, List.countP_append, countP_unsetDefaults,
      List.countP_cons, hdef]

/-- C8, witness: setting certificate 3 as default in a store where two
other certificates carry the flag leaves exactly one default, and so does
creating a new default certificate over the same store. -/
theorem c8_single_default_witness :
    (∃ db2, set_default_certificate c8Db 3 = .ok db2
      ∧ db2.countP (fun c => c.is_default) = 1)
    ∧ (create_certificate c8Db c8NewCert).countP (fun c => c.is_default) = 1 := by
  refine ⟨⟨_, rfl, ?_⟩, ?_⟩
  · exact (c8_single_default_invariant c8Db _ 3 c8NewCert).1 (by decide) rfl
  · exact (c8_single_default_invariant c8Db [] 3 c8NewCert).2 rfl

/-- C4: `validate_config` answers `(True, …)` exactly when the temp file
was written and the syntax-check process exited with code zero; a nonzero
exit, a timeout, or a raised error (such as a missing binary) all answer
`(False, message)` — the function is total, so no outcome escapes as an
exception — and the throwaway temporary file is gone after every outcome,
with the timeout outcome carrying its timeout marker as the message. -/
theorem c4_validate_zero_exit_iff_valid (env : ValidateEnv) :
    ((validate_config env).ok = true ↔
      env.writeTempRaises = none ∧ ∃ s, env.proc = ProcOutcome.completed 0 s)
    ∧ (validate_config env).tempExistsAfter = false
    ∧ (env.writeTempRaises = none → env.proc = ProcOutcome.timeout →
        (validate_config env).msg = "Validation timeout") := by
  obtain ⟨w, p⟩ := env
  refine ⟨?_, ?_, ?_⟩
  · cases w with
    | some m => simp [validate_config]
    | none =>
      cases p with
      | completed code stderr =>
        by_cases h : code = 0
        · subst h
          simp [validate_config]
        · simp [validate_config, h, Ne.symm h]
      | timeout => simp [validate_config]
      | raised m => simp [validate_config]
  · cases w with
    | some m => rfl
    | none =>
      cases p with
      | completed code stderr =>
        simp only [validate_config]
        split <;> rfl
      | timeout => rfl
      | raised m => rfl
  · intro hw hp
    cases w with
    | some m => exact Option.noConfusion hw
    | none =>
      subst hp
      rfl

/-- C4, witness: a timeout outcome yields an absent temp file and the
timeout marker as the message. -/
theorem c4_validate_timeout_witness :
    (validate_config ⟨none, ProcOutcome.timeout⟩).tempExistsAfter = false
      ∧ (validate_config ⟨none, ProcOutcome.timeout⟩).msg = "Validation timeout" :=
  ⟨(c4_validate_zero_exit_iff_valid ⟨none, ProcOutcome.timeout⟩).2.1,
   (c4_validate_zero_exit_iff_valid ⟨none, ProcOutcome.timeout⟩).2.2 rfl rfl⟩

/-- C3: in every apply cycle whose render step completes, a failed
validation returns immediately with a message prefixed by the failing
step ("Validation failed: …") and a trace in which neither the backup nor
the live configuration file was written; and whenever validation succeeds
but the write of the live file raises, the reload is never triggered. -/
theorem c3_validation_failure_touches_nothing (env : ApplyEnv) :
    (env.generateRaises = none →
      (validate_config env.validation).ok = false →
      apply_config env =
        ((false, "Validation failed: " ++ (validate_config env.validation).msg),
         { backupWritten := false, liveWritten := false, reloadTriggered := false }))
    ∧ ((validate_config env.validation).ok = true →
        env.writeRaises.isSome = true →
        ((apply_config env).2).reloadTriggered = false) := by
  obtain ⟨g, v, ce, b, w, r⟩ := env
  constructor
  · intro hg hv
    subst hg
    simp [apply_config, hv]
  · intro hv hw
    cases g with
    | some m => simp [apply_config]
    | none =>
      cases w with
      | none => simp at hw
      | some m =>
        simp only [apply_config, hv]
        cases ce <;> cases b <;> simp

/-- C3, witness: the orchestrator applied to both concrete environments:
a validation failure aborts with the step-prefixed message and an
untouched trace, and a write failure after a successful validation never
reaches the reload step. -/
theorem c3_validation_failure_witness :
    apply_config c3EnvInvalid =
      ((false, "Validation failed: syntax error"),
       { backupWritten := false, liveWritten := false, reloadTriggered := false })
      ∧ ((apply_config c3EnvWriteFail).2).reloadTriggered = false :=
  ⟨(c3_validation_failure_touches_nothing c3EnvInvalid).1 rfl rfl,
   (c3_validation_failure_touches_nothing c3EnvWriteFail).2 rfl rfl⟩

/-- A predicate false on every `allow` directive filters a mapped
allow-list to nothing. -/
lemma filter_map_allow_nil (l : List String) (p : Directive → Bool)
    (h : ∀ ip, p (Directive.allow ip) = false) :
    (l.map Directive.allow).filter p = [] := by
  induction l with
  | nil => rfl
  | cons a t ih => simp [h, ih]

/-- The access-control predicate keeps every mapped allow-list entry. -/
lemma filter_map_allow_self (l : List String) :
    (l.map Directive.allow).filter isIpDirective = l.map Directive.allow := by
  induction l with
  | nil => rfl
  | cons a t ih => simp [isIpDirective, ih]

/-- A predicate false on every `add_header` directive filters a mapped
header list to nothing. -/
lemma filter_map_addHeader_nil (l : List (String × String)) (p : Directive → Bool)
    (h : ∀ k v, p (Directive.addHeader k v) = false) :
    (l.map (fun kv => Directive.addHeader kv.1 kv.2)).filter p = [] := by
  induction l with
  | nil => rfl
  | cons a t ih => simp [h, ih]

/-- The certificate directives of a server block: exactly the bound
certificate and key when the rule is SSL-enabled, nothing otherwise. -/
lemma serverBlock_filter_cert (r : RenderedRule) (cp kp : String) :
    (serverBlock r cp kp).filter isCertDirective =
      if r.ssl_enabled then
        [Directive.sslCertificate cp, Directive.sslCertificateKey kp]
      else [] := by
  unfold serverBlock
  cases r.ssl_enabled <;>
    simp [List.filter_append, isCertDirective,
      apply_ite (List.filter isCertDirective),
      filter_map_allow_nil _ isCertDirective (fun _ => rfl),
      filter_map_addHeader_nil _ isCertDirective (fun _ _ => rfl)]

/-- The HSTS directives of a server block: the single header when both
the HSTS flag and the SSL flag are set, nothing otherwise. -/
lemma serverBlock_filter_hsts (r : RenderedRule) (cp kp : String) :
    (serverBlock r cp kp).filter isHstsDirective =
      if r.enable_hsts && r.ssl_enabled then [Directive.hstsHeader r.hsts_max_age]
      else [] := by
  unfold serverBlock
  cases r.ssl_enabled <;> cases r.enable_hsts <;>
    simp [List.filter_append, isHstsDirective,
      apply_ite (List.filter isHstsDirective),
      filter_map_allow_nil _ isHstsDirective (fun _ => rfl),
      filter_map_addHeader_nil _ isHstsDirective (fun _ _ => rfl)]

/-- The access-control directives of a server block: the allow-list in
order closed by deny-all when the parsed list is non-empty, nothing
otherwise. -/
lemma serverBlock_filter_ip (r : RenderedRule) (cp kp : String) :
    (serverBlock r cp kp).filter isIpDirective =
      if r.ip_list.isEmpty then []
      else r.ip_list.map Directive.allow ++ [Directive.denyAll] := by
  unfold serverBlock
  cases r.ssl_enabled <;> cases hip : r.ip_list.isEmpty <;>
    simp [List.filter_append, isIpDirective,
      apply_ite (List.filter isIpDirective),
      filter_map_allow_self, hip,
      filter_map_addHeader_nil _ isIpDirective (fun _ _ => rfl)]

/-- The custom `add_header` directives of a server block: the decoded
dict in order when the raw column is truthy, nothing otherwise. -/
lemma serverBlock_filter_addHeader (r : RenderedRule) (cp kp : String) :
    (serverBlock r cp kp).filter isAddHeaderDirective =
      if strTruthy r.custom_headers then
        r.custom_headers_dict.map (fun kv => Directive.addHeader kv.1 kv.2)
      else [] := by
  have hmap : (r.custom_headers_dict.map (fun kv => Directive.addHeader kv.1 kv.2)).filter
      isAddHeaderDirective
      = r.custom_headers_dict.map (fun kv => Directive.addHeader kv.1 kv.2) := by
    induction r.custom_headers_dict with
    | nil => rfl
    | cons a t ih => simp [isAddHeaderDirective, ih]
  unfold serverBlock
  cases r.ssl_enabled <;> cases hct : strTruthy r.custom_headers <;>
    simp [List.filter_append, isAddHeaderDirective,
      apply_ite (List.filter isAddHeaderDirective),
      filter_map_allow_nil _ isAddHeaderDirective (fun _ => rfl), hct, hmap]

/-- C5: the server block of a rule with `ssl_enabled = false` contains no
HSTS header and no certificate directive, regardless of the rule's HSTS
flag. -/
theorem c5_no_ssl_no_hsts_no_cert
    (rule : ProxyRule) (proto cp kp : String) (h : rule.ssl_enabled = false) :
    (serverBlock (toRenderedRule rule proto) cp kp).filter isHstsDirective = []
    ∧ (serverBlock (toRenderedRule rule proto) cp kp).filter isCertDirective = [] := by
  constructor
  · rw [serverBlock_filter_hsts]
    simp [toRenderedRule, h]
  · rw [serverBlock_filter_cert]
    simp [toRenderedRule, h]

/-- C5, witness: the concrete HSTS-flagged plain-HTTP rule renders
without HSTS or certificate directives. -/
theorem c5_no_ssl_witness :
    (serverBlock (toRenderedRule c5Rule "http") "/d.crt" "/d.key").filter
      isHstsDirective = []
    ∧ (serverBlock (toRenderedRule c5Rule "http") "/d.crt" "/d.key").filter
      isCertDirective = [] :=
  c5_no_ssl_no_hsts_no_cert c5Rule "http" "/d.crt" "/d.key" rfl

/-- C6: a rule whose parsed IP allow-list is non-empty renders exactly
one allow directive per entry, in order, closed by a single deny-all; a
rule whose parsed list is empty (or whose column is absent) renders no
access-control directive at all. -/
theorem c6_allow_list_closed_by_deny
    (rule : ProxyRule) (proto cp kp : String) :
    (parsedIpList rule.ip_whitelist ≠ [] →
      (serverBlock (toRenderedRule rule proto) cp kp).filter isIpDirective
        = (parsedIpList rule.ip_whitelist).map Directive.allow
          ++ [Directive.denyAll])
    ∧ (parsedIpList rule.ip_whitelist = [] →
      (serverBlock (toRenderedRule rule proto) cp kp).filter isIpDirective = []) := by
  constructor <;> intro h <;> rw [serverBlock_filter_ip] <;>
    simp [toRenderedRule, h]

/-- C6, witness: the two-address allow-list renders as exactly those two
allow directives followed by one deny-all. -/
theorem c6_allow_list_witness :
    (serverBlock (toRenderedRule c6Rule "http") "/d.crt" "/d.key").filter
      isIpDirective
      = [Directive.allow "203.0.113.4", Directive.allow "203.0.113.5",
         Directive.denyAll] :=
  (c6_allow_list_closed_by_deny c6Rule "http" "/d.crt" "/d.key").1 (by decide)

/-- C10: when a rule's stored `ip_whitelist` or `custom_headers` text
fails to decode as JSON the render does not raise — the embedded
transformation and template are total functions — and the failing field
is treated as empty: the block carries no access-control directive and no
custom `add_header` directive, respectively. -/
theorem c10_invalid_json_treated_as_empty
    (rule : ProxyRule) (proto cp kp : String) (s t : String) :
    (rule.ip_whitelist = some s → parseJsonStringList s = none →
      (serverBlock (toRenderedRule rule proto) cp kp).filter isIpDirective = [])
    ∧ (rule.custom_headers = some t → parseJsonStringPairs t = none →
      (serverBlock (toRenderedRule rule proto) cp kp).filter
        isAddHeaderDirective = []) := by
  constructor
  · intro hs hp
    rw [serverBlock_filter_ip]
    have hnil : parsedIpList rule.ip_whitelist = [] := by
      rw [hs]
      by_cases hse : s = "" <;> simp [parsedIpList, hse, hp]
    simp [toRenderedRule, hnil]
  · intro ht hp
    rw [serverBlock_filter_addHeader]
    have hnil : parsedHeaders rule.custom_headers = [] := by
      rw [ht]
      by_cases hte : t = "" <;> simp [parsedHeaders, hte, hp]
    simp [toRenderedRule, hnil]

/-- C10, witness: undecodable JSON in both columns renders a block with
no access-control and no custom-header directives. -/
theorem c10_invalid_json_witness :
    (serverBlock (toRenderedRule c10Rule "http") "/d.crt" "/d.key").filter
      isIpDirective = []
    ∧ (serverBlock (toRenderedRule c10Rule "http") "/d.crt" "/d.key").filter
      isAddHeaderDirective = [] :=
  ⟨(c10_invalid_json_treated_as_empty c10Rule "http" "/d.crt" "/d.key"
      "not json" "also not json").1 rfl rfl,
   (c10_invalid_json_treated_as_empty c10Rule "http" "/d.crt" "/d.key"
      "not json" "also not json").2 rfl rfl⟩

/-- C2: an SSL-enabled rule's server block binds exactly the certificate
and key paths of the certificate the resolver returns for that rule, and
binds the global default paths exactly when resolution yields no
certificate. -/
theorem c2_block_binds_resolved_certificate
    (db : List SSLCertificate) (rule : ProxyRule) (proto dc dk : String)
    (h : rule.ssl_enabled = true) :
    (∀ c, get_certificate_for_rule db rule = some c →
      (renderRuleResolved db rule proto dc dk).filter isCertDirective
        = [Directive.sslCertificate c.cert_path,
           Directive.sslCertificateKey c.key_path])
    ∧ (get_certificate_for_rule db rule = none →
      (renderRuleResolved db rule proto dc dk).filter isCertDirective
        = [Directive.sslCertificate dc, Directive.sslCertificateKey dk]) := by
  constructor
  · intro c hc
    unfold renderRuleResolved
    rw [serverBlock_filter_cert]
    simp [toRenderedRule, h, resolvedCertPaths, hc]
  · intro hc
    unfold renderRuleResolved
    rw [serverBlock_filter_cert]
    simp [toRenderedRule, h, resolvedCertPaths, hc]

/-- C2, witness: with the wildcard certificate in the store the block
binds its paths; with an empty store the block binds the global default
paths. -/
theorem c2_block_binding_witness :
    (renderRuleResolved [c2Cert] c2Rule "http" "/def.crt" "/def.key").filter
      isCertDirective
      = [Directive.sslCertificate "/w.crt", Directive.sslCertificateKey "/w.key"]
    ∧ (renderRuleResolved [] c2Rule "http" "/def.crt" "/def.key").filter
      isCertDirective
      = [Directive.sslCertificate "/def.crt",
         Directive.sslCertificateKey "/def.key"] :=
  ⟨(c2_block_binds_resolved_certificate [c2Cert] c2Rule "http" "/def.crt"
      "/def.key" rfl).1 c2Cert rfl,
   (c2_block_binds_resolved_certificate [] c2Rule "http" "/def.crt"
      "/def.key" rfl).2 rfl⟩

/-- C9: every rendered header comment carries the timestamp with an
explicit `+00:00` UTC offset — the timestamp is never emitted in a naive
(offset-free) form. -/
theorem c9_header_timestamp_has_utc_offset (t : UtcMoment) :
    ∃ p : String, configHeaderComment t = p ++ "+00:00" := by
  refine ⟨"# Generated at " ++ (toString t.year ++ "-" ++ pad2 t.month ++ "-"
    ++ pad2 t.day ++ "T" ++ pad2 t.hour ++ ":" ++ pad2 t.minute ++ ":"
    ++ pad2 t.second), ?_⟩
  simp [configHeaderComment, isoUtcTimestamp, String.append_assoc]

end ReverseProxy
